import Mathlib

/-!
Verification of the zap-logger-wrapper facade.

The repository is a thin configuration-and-delegation layer over the zap
structured-logging engine.  We shallowly embed:

  * field lists (Go `...interface\x7b\x7d` key-value arguments) as `List GoValue`;
  * `context.Context` as an opaque value bag `Context`;
  * severity levels as `Int`, matching the numeric values of `zapcore.Level`
    (`Debug = -1 < Info = 0 < Error = 2`);
  * the underlying `zap.SugaredLogger` as a record `SugaredLogger` holding the
    configuration the wrapper handed to `config.Build` (minimum level, output
    paths, accumulated persistent context fields) plus the flush outcome the
    environment will surface on `Sync`;
  * sink opening (the only effectful part of `config.Build`) through an
    environment `Env` saying which sink paths can be opened and what error, if
    any, a flush surfaces.

Emission is modelled by `SugaredLogger.logw`, which returns `some record` when
the call level is at or above the configured minimum and `none` otherwise; the
pairing of the emitted record with each configured sink is `recordWrites`.

The embedded `Logger`, its functional options, `New`, `Info`, `Error`,
`Debug`, `With` and `Sync` are direct translations of the source
(the functional-options variant; the positional-argument variant in
`logger.go` has byte-identical method bodies).
-/

/-- A Go value appearing in a variadic key-value field list. -/
inductive GoValue where
  | str : String → GoValue
  | int : Int → GoValue
  | bool : Bool → GoValue
  deriving DecidableEq, Repr

/-- Opaque request-scoped value bag standing for Go `context.Context`. -/
structure Context where
  bag : List (String × String)
  deriving DecidableEq, Repr

/-- `GetTraceIDFn` from the source: given a context, returns a trace ID. -/
def GetTraceIDFn : Type := Context → String

/-- Numeric value of `zapcore.DebugLevel`. -/
def DebugLevel : Int := -1

/-- Numeric value of `zapcore.InfoLevel`. -/
def InfoLevel : Int := 0

/-- Numeric value of `zapcore.ErrorLevel`. -/
def ErrorLevel : Int := 2

/-- One structured log record handed to the encoder. -/
structure Record where
  level : Int
  msg : String
  fields : List GoValue
  deriving DecidableEq, Repr

/-- Model of the built `zap.SugaredLogger`: the configuration resolved at
`config.Build` time plus the persistent context fields accumulated via
`With`, and the outcome the engine will surface on `Sync`. -/
structure SugaredLogger where
  level : Int
  outputPaths : List String
  context : List GoValue
  syncResult : Option String

/-- Level check plus emission, as zap's core does for a `*w` call: the record
is produced exactly when the call level is at or above the configured
minimum, carrying the persistent context fields followed by the call-site
key-value list. -/
def SugaredLogger.logw (s : SugaredLogger) (lvl : Int) (msg : String)
    (keyVals : List GoValue) : Option Record :=
  if s.level ≤ lvl then some ⟨lvl, msg, s.context ++ keyVals⟩ else none

/-- `zap.SugaredLogger.Infow`. -/
def SugaredLogger.Infow (s : SugaredLogger) (msg : String)
    (keyVals : List GoValue) : Option Record :=
  s.logw InfoLevel msg keyVals

/-- `zap.SugaredLogger.Errorw`. -/
def SugaredLogger.Errorw (s : SugaredLogger) (msg : String)
    (keyVals : List GoValue) : Option Record :=
  s.logw ErrorLevel msg keyVals

/-- `zap.SugaredLogger.Debugw`. -/
def SugaredLogger.Debugw (s : SugaredLogger) (msg : String)
    (keyVals : List GoValue) : Option Record :=
  s.logw DebugLevel msg keyVals

/-- `zap.SugaredLogger.With`: a new sugared logger whose persistent context
is the old context followed by the supplied key-value pairs. -/
def SugaredLogger.With (s : SugaredLogger) (keyVals : List GoValue) :
    SugaredLogger :=
  { s with context := s.context ++ keyVals }

/-- `zap.SugaredLogger.Sync`: surfaces whatever the underlying sinks report. -/
def SugaredLogger.Sync (s : SugaredLogger) : Option String :=
  s.syncResult

/-- The effectful environment of construction and flushing: which sink paths
`config.Build` can open, and the error (if any) a flush surfaces. -/
structure Env where
  sinkOK : String → Bool
  syncResult : Option String

/-- `config.Build`: succeeds iff every configured output path can be opened,
yielding an engine bound to the resolved level, paths and initial fields. -/
def buildEngine (env : Env) (level : Int) (outputPaths : List String)
    (initialKVs : List GoValue) : Except String SugaredLogger :=
  if outputPaths.all env.sinkOK then
    .ok ⟨level, outputPaths, initialKVs, env.syncResult⟩
  else
    .error "failed to open sink"

/-- The `Logger` wrapper struct of the functional-options variant. -/
structure Logger where
  zapLogger : SugaredLogger
  getTraceIDFn : Option GetTraceIDFn
  level : Int
  outputPaths : List String

/-- The three functional options of the source, as a deep embedding so that
which setting an option touches is inspectable.  `WithTraceID` carries an
`Option` because the Go function value it stores may be nil. -/
inductive Opt where
  | WithTraceID (f : Option GetTraceIDFn)
  | WithLevel (level : Int)
  | WithOutputPaths (outputPaths : List String)

/-- Application of one functional option to the logger under construction;
each option overwrites exactly one field, as the source closures do. -/
def applyOpt (l : Logger) : Opt → Logger
  | .WithTraceID f => { l with getTraceIDFn := f }
  | .WithLevel lvl => { l with level := lvl }
  | .WithOutputPaths ps => { l with outputPaths := ps }

/-- `New` of the functional-options variant: build a production engine
(`zap.NewProduction` opens the `stderr` sink), install the defaults
(Info level, `stdout` sink, a default trace function returning the empty
string), apply the options in order, then build the real engine from the
resolved configuration with the `service` initial field. -/
def New (env : Env) (service : String) (opts : List Opt) :
    Except String Logger :=
  match buildEngine env InfoLevel ["stderr"] [] with
  | .error err => .error err
  | .ok l0 =>
    let logger0 : Logger :=
      ⟨l0, some (fun _ => ""), InfoLevel, ["stdout"]⟩
    let logger1 := opts.foldl applyOpt logger0
    match buildEngine env logger1.level logger1.outputPaths
        [.str "service", .str service] with
    | .error err => .error err
    | .ok eng => .ok { logger1 with zapLogger := eng }

/-- The trace-injection preamble shared by `Info`, `Error` and `Debug`:
if a trace function is configured and returns a non-empty string on the
supplied context, append the pair `"trace_id"`, value to the key-value
list; otherwise leave the list unchanged. -/
def injectTraceID (fn : Option GetTraceIDFn) (ctx : Context)
    (keyVals : List GoValue) : List GoValue :=
  match fn with
  | none => keyVals
  | some f =>
    if f ctx = "" then keyVals
    else keyVals ++ [.str "trace_id", .str (f ctx)]

/-- `Logger.Info`: trace injection then delegation to `Infow`.  The first
component is the receiver after the call (the method writes no field of it);
the second is the emitted record, if any. -/
def Logger.Info (l : Logger) (ctx : Context) (msg : String)
    (keyVals : List GoValue) : Logger × Option Record :=
  (l, l.zapLogger.Infow msg (injectTraceID l.getTraceIDFn ctx keyVals))

/-- `Logger.Error`: trace injection then delegation to `Errorw`. -/
def Logger.Error (l : Logger) (ctx : Context) (msg : String)
    (keyVals : List GoValue) : Logger × Option Record :=
  (l, l.zapLogger.Errorw msg (injectTraceID l.getTraceIDFn ctx keyVals))

/-- `Logger.Debug`: trace injection then delegation to `Debugw`. -/
def Logger.Debug (l : Logger) (ctx : Context) (msg : String)
    (keyVals : List GoValue) : Logger × Option Record :=
  (l, l.zapLogger.Debugw msg (injectTraceID l.getTraceIDFn ctx keyVals))

/-- `Logger.With`: child logger over `zapLogger.With`, copying the trace
function, level and output paths from the parent. -/
def Logger.With (l : Logger) (keyVals : List GoValue) : Logger :=
  { zapLogger := l.zapLogger.With keyVals
    getTraceIDFn := l.getTraceIDFn
    level := l.level
    outputPaths := l.outputPaths }

/-- `Logger.Sync`: delegates to the engine's `Sync`. -/
def Logger.Sync (l : Logger) : Option String :=
  l.zapLogger.Sync

/-- The writes a (possible) emission causes: the record paired with every
configured sink, nothing when no record was emitted. -/
def recordWrites (l : Logger) : Option Record → List (String × Record)
  | none => []
  | some r => l.zapLogger.outputPaths.map fun p => (p, r)

/-- One step of last-write-wins resolution: keep the new value when the
option is of the selected kind, the accumulator otherwise. -/
def stepSel {β : Type} (sel : Opt → Option β) (acc : Option β) (o : Opt) :
    Option β :=
  match sel o with
  | some v => some v
  | none => acc

/-- The value the last option of a given kind carries, selected by `sel`:
the last-write-wins resolution of one scalar setting. -/
def lastSet {β : Type} (sel : Opt → Option β) (opts : List Opt) : Option β :=
  opts.foldl (stepSel sel) none

/-- Selector for `WithLevel`. -/
def levelOf : Opt → Option Int
  | .WithLevel v => some v
  | _ => none

/-- Selector for `WithOutputPaths`. -/
def pathsOf : Opt → Option (List String)
  | .WithOutputPaths v => some v
  | _ => none

/-- Selector for `WithTraceID`. -/
def traceOf : Opt → Option (Option GetTraceIDFn)
  | .WithTraceID v => some v
  | _ => none

/-- Folding the last-write-wins step from any accumulator: the result is the
fold from `none` unless no option of the kind occurs, in which case it is the
accumulator. -/
theorem foldl_stepSel_acc {β : Type} (sel : Opt → Option β) (opts : List Opt) :
    ∀ acc : Option β,
      opts.foldl (stepSel sel) acc
        = match lastSet sel opts with
          | some v => some v
          | none => acc := by
  induction opts with
  | nil => intro acc; rfl
  | cons o rest ih =>
    intro acc
    simp only [lastSet, List.foldl_cons] at *
    cases hso : sel o with
    | none =>
      simp only [stepSel, hso]
      exact ih acc
    | some v =>
      simp only [stepSel, hso]
      rw [ih (some v)]
      cases rest.foldl (stepSel sel) none <;> rfl

/-- A projection of the logger that one option kind overwrites and the other
kinds leave alone is, after applying all options, the last written value of
that kind, defaulting to the initial value. -/
theorem proj_foldl_applyOpt {β : Type} (sel : Opt → Option β)
    (proj : Logger → β)
    (hc : ∀ (l : Logger) (o : Opt), proj (applyOpt l o) = (sel o).getD (proj l))
    (opts : List Opt) :
    ∀ l : Logger,
      proj (opts.foldl applyOpt l) = (lastSet sel opts).getD (proj l) := by
  induction opts with
  | nil => intro l; rfl
  | cons o rest ih =>
    intro l
    simp only [List.foldl_cons, lastSet] at *
    rw [ih (applyOpt l o), hc l o, foldl_stepSel_acc sel rest (stepSel sel none o)]
    simp only [lastSet]
    cases hr : rest.foldl (stepSel sel) none with
    | some v => simp [hr]
    | none =>
      simp [hr]
      cases hso : sel o <;> simp [stepSel, hso]

/-- `levelOf` is compatible with `applyOpt` on the `level` field. -/
theorem levelOf_compat (l : Logger) (o : Opt) :
    (applyOpt l o).level = (levelOf o).getD l.level := by
  cases o <;> rfl

/-- `pathsOf` is compatible with `applyOpt` on the `outputPaths` field. -/
theorem pathsOf_compat (l : Logger) (o : Opt) :
    (applyOpt l o).outputPaths = (pathsOf o).getD l.outputPaths := by
  cases o <;> rfl

/-- `traceOf` is compatible with `applyOpt` on the `getTraceIDFn` field. -/
theorem traceOf_compat (l : Logger) (o : Opt) :
    (applyOpt l o).getTraceIDFn = (traceOf o).getD l.getTraceIDFn := by
  cases o <;> rfl

/-- The logger the options fold starts from inside `New`. -/
def defaultLogger (l0 : SugaredLogger) : Logger :=
  ⟨l0, some (fun _ => ""), InfoLevel, ["stdout"]⟩

/-- Closed form of `New`: it succeeds exactly when both engine builds
succeed, and then every field of the result is determined by the
last-write-wins resolution of the options over the defaults. -/
theorem New_eq (env : Env) (service : String) (opts : List Opt) :
    New env service opts =
      if env.sinkOK "stderr" then
        if ((lastSet pathsOf opts).getD ["stdout"]).all env.sinkOK then
          .ok
            { zapLogger :=
                ⟨(lastSet levelOf opts).getD InfoLevel,
                 (lastSet pathsOf opts).getD ["stdout"],
                 [.str "service", .str service], env.syncResult⟩
              getTraceIDFn := (lastSet traceOf opts).getD (some (fun _ => ""))
              level := (lastSet levelOf opts).getD InfoLevel
              outputPaths := (lastSet pathsOf opts).getD ["stdout"] }
        else .error "failed to open sink"
      else .error "failed to open sink" := by
  have hlvl :
      (opts.foldl applyOpt (defaultLogger ⟨InfoLevel, ["stderr"], [], env.syncResult⟩)).level
        = (lastSet levelOf opts).getD InfoLevel :=
    proj_foldl_applyOpt levelOf Logger.level levelOf_compat opts _
  have hpaths :
      (opts.foldl applyOpt (defaultLogger ⟨InfoLevel, ["stderr"], [], env.syncResult⟩)).outputPaths
        = (lastSet pathsOf opts).getD ["stdout"] :=
    proj_foldl_applyOpt pathsOf Logger.outputPaths pathsOf_compat opts _
  have htr :
      (opts.foldl applyOpt (defaultLogger ⟨InfoLevel, ["stderr"], [], env.syncResult⟩)).getTraceIDFn
        = (lastSet traceOf opts).getD (some (fun _ => "")) :=
    proj_foldl_applyOpt traceOf Logger.getTraceIDFn traceOf_compat opts _
  simp only [defaultLogger] at hlvl hpaths htr
  by_cases h1 : env.sinkOK "stderr"
  · by_cases h2 : ((lastSet pathsOf opts).getD ["stdout"]).all env.sinkOK
    · simp [New, buildEngine, h1, hlvl, hpaths, htr, h2]
    · simp only [Bool.not_eq_true] at h2
      simp [New, buildEngine, h1, hlvl, hpaths, htr, h2]
  · simp only [Bool.not_eq_true] at h1
    simp [New, buildEngine, h1]

/-- Eliminating a successful `New`: both sink checks passed and the result
is the record with the last-write-wins resolved fields. -/
theorem New_ok_elim {env : Env} {service : String} {opts : List Opt}
    {l : Logger} (h : New env service opts = .ok l) :
    env.sinkOK "stderr" = true ∧
    ((lastSet pathsOf opts).getD ["stdout"]).all env.sinkOK = true ∧
    l = { zapLogger :=
            ⟨(lastSet levelOf opts).getD InfoLevel,
             (lastSet pathsOf opts).getD ["stdout"],
             [.str "service", .str service], env.syncResult⟩
          getTraceIDFn := (lastSet traceOf opts).getD (some (fun _ => ""))
          level := (lastSet levelOf opts).getD InfoLevel
          outputPaths := (lastSet pathsOf opts).getD ["stdout"] } := by
  rw [New_eq] at h
  by_cases h1 : env.sinkOK "stderr"
  · by_cases h2 : ((lastSet pathsOf opts).getD ["stdout"]).all env.sinkOK
    · simp only [h1, h2, if_true] at h
      exact ⟨h1, h2, by injection h with h; exact h.symm⟩
    · simp [h1, h2] at h
  · simp [h1] at h

/-- Claim C1: on every log call with a configured trace-extraction function,
the function is applied to the supplied context; a non-empty result appends
exactly the one pair `"trace_id"`, value after all user-supplied fields, an
empty result leaves the field list unchanged; each of `Info`, `Error` and
`Debug` emits through the injected list. -/
theorem C1_trace_injection (l : Logger) (f : GetTraceIDFn) (ctx : Context)
    (msg : String) (keyVals : List GoValue)
    (h : l.getTraceIDFn = some f) :
    (f ctx ≠ "" →
      injectTraceID l.getTraceIDFn ctx keyVals
        = keyVals ++ [.str "trace_id", .str (f ctx)]) ∧
    (f ctx = "" → injectTraceID l.getTraceIDFn ctx keyVals = keyVals) ∧
    (l.Info ctx msg keyVals).2
      = l.zapLogger.Infow msg (injectTraceID l.getTraceIDFn ctx keyVals) ∧
    (l.Error ctx msg keyVals).2
      = l.zapLogger.Errorw msg (injectTraceID l.getTraceIDFn ctx keyVals) ∧
    (l.Debug ctx msg keyVals).2
      = l.zapLogger.Debugw msg (injectTraceID l.getTraceIDFn ctx keyVals) := by
  refine ⟨?_, ?_, rfl, rfl, rfl⟩ <;> intro hne <;> simp [injectTraceID, h, hne]

/-- A concrete trace function used to instantiate C1. -/
def traceFnABC : GetTraceIDFn := fun _ => "abc123"

/-- A concrete logger whose trace function is configured. -/
def loggerC1 : Logger :=
  ⟨⟨InfoLevel, ["stdout"], [.str "service", .str "svc"], none⟩,
   some traceFnABC, InfoLevel, ["stdout"]⟩

/-- The empty context. -/
def ctx0 : Context := ⟨[]⟩

/-- Witness for C1 at a concrete logger, context and field list. -/
theorem C1_trace_injection_witness :
    loggerC1.getTraceIDFn = some traceFnABC ∧
    ((traceFnABC ctx0 ≠ "" →
      injectTraceID loggerC1.getTraceIDFn ctx0 [.int 7]
        = [.int 7] ++ [.str "trace_id", .str (traceFnABC ctx0)]) ∧
    (traceFnABC ctx0 = "" →
      injectTraceID loggerC1.getTraceIDFn ctx0 [.int 7] = [.int 7]) ∧
    (loggerC1.Info ctx0 "m" [.int 7]).2
      = loggerC1.zapLogger.Infow "m"
          (injectTraceID loggerC1.getTraceIDFn ctx0 [.int 7]) ∧
    (loggerC1.Error ctx0 "m" [.int 7]).2
      = loggerC1.zapLogger.Errorw "m"
          (injectTraceID loggerC1.getTraceIDFn ctx0 [.int 7]) ∧
    (loggerC1.Debug ctx0 "m" [.int 7]).2
      = loggerC1.zapLogger.Debugw "m"
          (injectTraceID loggerC1.getTraceIDFn ctx0 [.int 7])) :=
  ⟨rfl, C1_trace_injection loggerC1 traceFnABC ctx0 "m" [.int 7] rfl⟩

/-- Claim C2: `With` derives a child whose persistent context is the parent
context followed by the supplied fields, sharing the parent trace function,
level and sink configuration; the parent value is untouched (the embedding
is pure, and the child holds its own extended copy of the context). -/
theorem C2_with_derivation (l : Logger) (keyVals : List GoValue) :
    (l.With keyVals).zapLogger.context = l.zapLogger.context ++ keyVals ∧
    (l.With keyVals).getTraceIDFn = l.getTraceIDFn ∧
    (l.With keyVals).level = l.level ∧
    (l.With keyVals).outputPaths = l.outputPaths ∧
    (l.With keyVals).zapLogger.level = l.zapLogger.level ∧
    (l.With keyVals).zapLogger.outputPaths = l.zapLogger.outputPaths ∧
    (l.With keyVals).zapLogger.syncResult = l.zapLogger.syncResult :=
  ⟨rfl, rfl, rfl, rfl, rfl, rfl, rfl⟩

/-- Claim C8: the three logging operations are total and surface no error:
each returns the unchanged receiver paired with the engine delegation, and
the user field list — of any length and shape, odd counts included — reaches
the engine unmodified as a prefix of the injected list. -/
theorem C8_log_calls_never_fail (l : Logger) (ctx : Context) (msg : String)
    (keyVals : List GoValue) :
    l.Info ctx msg keyVals
      = (l, l.zapLogger.Infow msg (injectTraceID l.getTraceIDFn ctx keyVals)) ∧
    l.Error ctx msg keyVals
      = (l, l.zapLogger.Errorw msg (injectTraceID l.getTraceIDFn ctx keyVals)) ∧
    l.Debug ctx msg keyVals
      = (l, l.zapLogger.Debugw msg (injectTraceID l.getTraceIDFn ctx keyVals)) ∧
    (injectTraceID l.getTraceIDFn ctx keyVals).take keyVals.length
      = keyVals := by
  refine ⟨rfl, rfl, rfl, ?_⟩
  cases hf : l.getTraceIDFn with
  | none => simp [injectTraceID]
  | some f =>
    simp only [injectTraceID]
    by_cases he : f ctx = ""
    · simp [he]
    · simp [he, List.take_left]

/-- Claim C9: `Sync` returns exactly what the engine's flush surfaces,
untransformed; an engine success is a facade success. -/
theorem C9_sync_passthrough (l : Logger) :
    Logger.Sync l = SugaredLogger.Sync l.zapLogger ∧
    Logger.Sync l = l.zapLogger.syncResult :=
  ⟨rfl, rfl⟩

/-- Claim C10: every log call leaves the receiver unchanged — the engine
handle, trace function, level and sink list are identical before and after;
only the call-local field list is extended. -/
theorem C10_log_frame (l : Logger) (ctx : Context) (msg : String)
    (keyVals : List GoValue) :
    (l.Info ctx msg keyVals).1 = l ∧
    (l.Error ctx msg keyVals).1 = l ∧
    (l.Debug ctx msg keyVals).1 = l ∧
    (l.Info ctx msg keyVals).1.zapLogger = l.zapLogger ∧
    (l.Info ctx msg keyVals).1.getTraceIDFn = l.getTraceIDFn ∧
    (l.Info ctx msg keyVals).1.level = l.level ∧
    (l.Info ctx msg keyVals).1.outputPaths = l.outputPaths :=
  ⟨rfl, rfl, rfl, rfl, rfl, rfl, rfl⟩

/-- Claim C3: options are applied in sequence order over the defaults, and
for each scalar setting the last option setting it determines the resolved
value — on the facade and on the engine it builds. -/
theorem C3_options_last_write_wins (env : Env) (service : String)
    (opts : List Opt) (l : Logger) (h : New env service opts = .ok l) :
    l.level = (lastSet levelOf opts).getD InfoLevel ∧
    l.outputPaths = (lastSet pathsOf opts).getD ["stdout"] ∧
    l.getTraceIDFn = (lastSet traceOf opts).getD (some (fun _ => "")) ∧
    l.zapLogger.level = l.level ∧
    l.zapLogger.outputPaths = l.outputPaths := by
  obtain ⟨-, -, rfl⟩ := New_ok_elim h
  exact ⟨rfl, rfl, rfl, rfl, rfl⟩

/-- An environment where every sink can be opened and flushing succeeds. -/
def env0 : Env := ⟨fun _ => true, none⟩

/-- An option sequence setting level and sink list twice each. -/
def optsC3 : List Opt :=
  [.WithLevel ErrorLevel, .WithLevel DebugLevel,
   .WithOutputPaths ["a"], .WithOutputPaths ["b"]]

/-- The logger `New` produces from `optsC3` in `env0`. -/
def loggerC3 : Logger :=
  ⟨⟨DebugLevel, ["b"], [.str "service", .str "svc3"], none⟩,
   some (fun _ => ""), DebugLevel, ["b"]⟩

/-- Witness for C3: with two level options and two sink options, the later
one of each kind wins. -/
theorem C3_options_last_write_wins_witness :
    New env0 "svc3" optsC3 = .ok loggerC3 ∧
    (loggerC3.level = (lastSet levelOf optsC3).getD InfoLevel ∧
     loggerC3.outputPaths = (lastSet pathsOf optsC3).getD ["stdout"] ∧
     loggerC3.getTraceIDFn = (lastSet traceOf optsC3).getD (some (fun _ => "")) ∧
     loggerC3.zapLogger.level = loggerC3.level ∧
     loggerC3.zapLogger.outputPaths = loggerC3.outputPaths) :=
  ⟨rfl, C3_options_last_write_wins env0 "svc3" optsC3 loggerC3 rfl⟩

/-- Counterexample to C4 as stated: with no options the constructed facade's
trace-extraction function is not absent — the source installs a default
function (returning the empty string), not nil. -/
theorem C4_default_trace_not_none :
    (New env0 "svc4" []).map Logger.getTraceIDFn ≠ .ok none := by
  rw [show (New env0 "svc4" []).map Logger.getTraceIDFn
        = Except.ok (some (fun _ => "")) from rfl]
  simp

/-- Claim C4 (amended): with no options the resolved configuration is Info
severity and a single standard-output sink, and the trace function is the
default one returning the empty string on every context — so no trace
identifier is ever appended. -/
theorem C4_defaults (env : Env) (service : String) (l : Logger)
    (h : New env service [] = .ok l) :
    l.level = InfoLevel ∧
    l.outputPaths = ["stdout"] ∧
    l.getTraceIDFn = some (fun _ => "") ∧
    (∀ (ctx : Context) (keyVals : List GoValue),
      injectTraceID l.getTraceIDFn ctx keyVals = keyVals) := by
  obtain ⟨-, -, rfl⟩ := New_ok_elim h
  refine ⟨rfl, rfl, rfl, fun ctx keyVals => ?_⟩
  simp [injectTraceID, lastSet, stepSel]

/-- The logger `New` produces with no options in `env0`. -/
def loggerC4 : Logger :=
  ⟨⟨InfoLevel, ["stdout"], [.str "service", .str "svc4"], none⟩,
   some (fun _ => ""), InfoLevel, ["stdout"]⟩

/-- Witness for the amended C4 at a concrete environment. -/
theorem C4_defaults_witness :
    New env0 "svc4" [] = .ok loggerC4 ∧
    (loggerC4.level = InfoLevel ∧
     loggerC4.outputPaths = ["stdout"] ∧
     loggerC4.getTraceIDFn = some (fun _ => "") ∧
     ∀ (ctx : Context) (keyVals : List GoValue),
       injectTraceID loggerC4.getTraceIDFn ctx keyVals = keyVals) :=
  ⟨rfl, C4_defaults env0 "svc4" loggerC4 rfl⟩

/-- The severity-filtering contract of one call at level `c` against a
facade minimum `X`: below `X` nothing is emitted and no sink is written;
at or above `X` the record is emitted and written to every configured
sink. -/
def FilterOK (l : Logger) (X c : Int) (msg : String) (fields : List GoValue)
    (r : Option Record) : Prop :=
  (c < X → r = none ∧ recordWrites l r = []) ∧
  (X ≤ c → r = some ⟨c, msg, l.zapLogger.context ++ fields⟩ ∧
    recordWrites l r
      = l.zapLogger.outputPaths.map fun p =>
          (p, (⟨c, msg, l.zapLogger.context ++ fields⟩ : Record)))

/-- `logw` on an engine at level `X` satisfies the filtering contract. -/
theorem filterOK_logw (l : Logger) (X c : Int)
    (hz : l.zapLogger.level = X) (msg : String) (fields : List GoValue) :
    FilterOK l X c msg fields (l.zapLogger.logw c msg fields) := by
  constructor
  · intro hlt
    have hle : ¬ (l.zapLogger.level ≤ c) := by omega
    simp [SugaredLogger.logw, hle, recordWrites]
  · intro hge
    have hle : l.zapLogger.level ≤ c := by omega
    simp [SugaredLogger.logw, hle, recordWrites]

/-- Claim C5: a facade constructed at minimum severity `X` (with `X` one of
debug, info, error) emits nothing — and writes to no sink — on a call below
`X`, and emits to every configured sink on a call at or above `X`, for each
of `Debug`, `Info` and `Error`. -/
theorem C5_severity_filtering (env : Env) (service : String)
    (opts : List Opt) (l : Logger) (X : Int)
    (h : New env service opts = .ok l) (hX : l.level = X)
    (_hmem : X = DebugLevel ∨ X = InfoLevel ∨ X = ErrorLevel)
    (ctx : Context) (msg : String) (keyVals : List GoValue) :
    FilterOK l X DebugLevel msg (injectTraceID l.getTraceIDFn ctx keyVals)
      (l.Debug ctx msg keyVals).2 ∧
    FilterOK l X InfoLevel msg (injectTraceID l.getTraceIDFn ctx keyVals)
      (l.Info ctx msg keyVals).2 ∧
    FilterOK l X ErrorLevel msg (injectTraceID l.getTraceIDFn ctx keyVals)
      (l.Error ctx msg keyVals).2 := by
  obtain ⟨-, -, hl⟩ := New_ok_elim h
  have hz : l.zapLogger.level = X := by rw [hl] at hX ⊢; exact hX
  exact ⟨filterOK_logw l X DebugLevel hz msg _,
         filterOK_logw l X InfoLevel hz msg _,
         filterOK_logw l X ErrorLevel hz msg _⟩

/-- The logger `New` produces with no options for service `svc5`. -/
def loggerC5 : Logger :=
  ⟨⟨InfoLevel, ["stdout"], [.str "service", .str "svc5"], none⟩,
   some (fun _ => ""), InfoLevel, ["stdout"]⟩

/-- Witness for C5: the default (Info-level) facade suppresses `Debug` and
emits `Info` and `Error`. -/
theorem C5_severity_filtering_witness :
    New env0 "svc5" [] = .ok loggerC5 ∧
    loggerC5.level = InfoLevel ∧
    (InfoLevel = DebugLevel ∨ InfoLevel = InfoLevel ∨ InfoLevel = ErrorLevel) ∧
    (FilterOK loggerC5 InfoLevel DebugLevel "m"
       (injectTraceID loggerC5.getTraceIDFn ctx0 [])
       (loggerC5.Debug ctx0 "m" []).2 ∧
     FilterOK loggerC5 InfoLevel InfoLevel "m"
       (injectTraceID loggerC5.getTraceIDFn ctx0 [])
       (loggerC5.Info ctx0 "m" []).2 ∧
     FilterOK loggerC5 InfoLevel ErrorLevel "m"
       (injectTraceID loggerC5.getTraceIDFn ctx0 [])
       (loggerC5.Error ctx0 "m" []).2) :=
  ⟨rfl, rfl, Or.inr (Or.inl rfl),
   C5_severity_filtering env0 "svc5" [] loggerC5 InfoLevel rfl rfl
     (Or.inr (Or.inl rfl)) ctx0 "m" []⟩

/-- Counterexample to C6 as stated: supplying an empty sink list still
constructs successfully, and the facade's sink list is empty. -/
theorem C6_empty_sink_list :
    (New env0 "svc6" [.WithOutputPaths []]).map Logger.outputPaths
      = .ok [] := rfl

/-- Claim C6 (amended): the sink list defaults to exactly one
standard-output sink when no sink option is supplied; in general it equals
the last supplied sink list, which the source never checks for emptiness. -/
theorem C6_sink_default (env : Env) (service : String) (opts : List Opt)
    (l : Logger) (h : New env service opts = .ok l) :
    l.outputPaths = (lastSet pathsOf opts).getD ["stdout"] ∧
    (lastSet pathsOf opts = none → l.outputPaths = ["stdout"]) := by
  obtain ⟨-, -, rfl⟩ := New_ok_elim h
  exact ⟨rfl, fun h0 => by simp [h0]⟩

/-- The logger `New` produces from one sink option for service `svc6`. -/
def loggerC6 : Logger :=
  ⟨⟨InfoLevel, ["mem:buf"], [.str "service", .str "svc6"], none⟩,
   some (fun _ => ""), InfoLevel, ["mem:buf"]⟩

/-- Witness for the amended C6 at a concrete sink option. -/
theorem C6_sink_default_witness :
    New env0 "svc6" [.WithOutputPaths ["mem:buf"]] = .ok loggerC6 ∧
    (loggerC6.outputPaths
       = (lastSet pathsOf [.WithOutputPaths ["mem:buf"]]).getD ["stdout"] ∧
     (lastSet pathsOf [.WithOutputPaths ["mem:buf"]] = none →
       loggerC6.outputPaths = ["stdout"])) :=
  ⟨rfl, C6_sink_default env0 "svc6" [.WithOutputPaths ["mem:buf"]] loggerC6 rfl⟩

/-- Claim C7: construction fails exactly when one of the two engine builds
fails (the production build opening `stderr`, or the configured build
opening the resolved sink list), and a facade value is produced exactly in
the non-failing case. -/
theorem C7_construction_failure (env : Env) (service : String)
    (opts : List Opt) :
    (New env service opts).isOk
      = ((buildEngine env InfoLevel ["stderr"] []).isOk
          && (buildEngine env ((lastSet levelOf opts).getD InfoLevel)
                ((lastSet pathsOf opts).getD ["stdout"])
                [.str "service", .str service]).isOk) ∧
    (New env service opts).toOption.isSome = (New env service opts).isOk := by
  rw [New_eq]
  by_cases h1 : env.sinkOK "stderr" <;>
    by_cases h2 : ((lastSet pathsOf opts).getD ["stdout"]).all env.sinkOK <;>
      simp [buildEngine, h1, h2, Except.isOk, Except.toBool, Except.toOption]
